import Mathlib

/-!
Shallow embedding of the simpl3-engine registration core:
the key-derivation helpers and credential envelope from `src/build/node.mjs`
(`generateKey`, `generateAccount`, `decryptData`), and the xstate
`registerAccountMachine` from `src/machines/registerAccount.ts` modelled as a
deterministic run function over an explicit environment (DB failure flags and
the freshly generated key pairs) and an association-list store.

External library primitives (SHA-256, AES-256-CBC, `JSON.stringify` and
`JSON.parse`) are packaged as a `Prims` record of function parameters: the
repository only composes them, so every theorem is about the composition,
with primitive-level facts (hash injectivity on the used inputs, cipher
round-trip) taken as explicit hypotheses where a claim needs them.
-/

namespace Simpl3

/-- A key pair as serialized by `generateAccount` in `src/build/node.mjs`:
the JSON payload has fields `pubKey` and `privKey` (base58 strings). -/
structure Credentials where
  pubKey : String
  privKey : String
deriving DecidableEq, Repr

/-- External primitives used by the core: `hash` is `crypto.createHash("sha256")...digest("hex")`,
`enc`/`dec` are AES-256-CBC encrypt/decrypt (plaintext/ciphertext, hex key, hex IV;
`dec` can fail, modelling a thrown exception from `decipher.update/final` or
`createDecipheriv`), `stringifyCreds`/`parseCreds` are `JSON.stringify`/`JSON.parse`
on the credentials payload (`parseCreds` can fail, modelling a `JSON.parse` throw). -/
structure Prims where
  hash : String → String
  enc : String → String → String → String
  dec : String → String → String → Except String String
  stringifyCreds : Credentials → String
  parseCreds : String → Except String Credentials

/-- JS `[a, b].join(sep)` renders `undefined`/`null` elements as the empty string. -/
def optStr (s : Option String) : String := s.getD ""

/-- JS number-or-undefined rendered by `Array.prototype.join`. -/
def optNatStr (p : Option Nat) : String :=
  match p with
  | some n => toString n
  | none => ""

/-- Function `generateKey` from `src/build/node.mjs`: sha256 hex digest of the input string. -/
def generateKey (P : Prims) (value : String) : String := P.hash value

/-- Expression `[id, appId].join("%")` as used in `fetchLogins` and `registerAppAccount`. -/
def joinPct (id : String) (appId : Option String) : String :=
  id ++ "%" ++ optStr appId

/-- Expression `[id, pin].join("$")` as used in `registerAccount`. -/
def joinDollar2 (id : String) (pin : Option Nat) : String :=
  id ++ "$" ++ optNatStr pin

/-- Expression `[id, pin, appId].join("$")` as used in `registerAppAccount`. -/
def joinDollar3 (id : String) (pin : Option Nat) (appId : Option String) : String :=
  id ++ "$" ++ optNatStr pin ++ "$" ++ optStr appId

/-- Top-level storage key: `generateKey(input.id)`. -/
def storeKeyTop (P : Prims) (id : String) : String := generateKey P id

/-- App-scoped storage key: `generateKey([input.id, input.appId].join("%"))`. -/
def storeKeyApp (P : Prims) (id : String) (appId : Option String) : String :=
  generateKey P (joinPct id appId)

/-- Top-level cipher key: `generateKey([input.id, input.pin].join("$"))`. -/
def cipherKeyTop (P : Prims) (id : String) (pin : Option Nat) : String :=
  generateKey P (joinDollar2 id pin)

/-- App-scoped cipher key: `generateKey([input.id, input.pin, input.appId].join("$"))`. -/
def cipherKeyApp (P : Prims) (id : String) (pin : Option Nat) (appId : Option String) : String :=
  generateKey P (joinDollar3 id pin appId)

/-- A persisted document in the `auth` collection: `{ id: <storage key>, credentials: <envelope> }`. -/
structure AuthRecord where
  id : String
  credentials : String
deriving DecidableEq, Repr

/-- The `auth` collection, modelled as an insertion-ordered list of documents. -/
abbrev Store := List AuthRecord

/-- Lookup `db.collection("auth").findOne({ id: key })`. -/
def findOne (store : Store) (key : String) : Option AuthRecord :=
  store.find? (fun r => r.id == key)

/-- Function `generateAccount` from `src/build/node.mjs`: if the configured IV is truthy,
encrypt the JSON-serialized fresh key pair under the cipher key and the
process-wide IV; otherwise return the empty string. The fresh key pair
(`crypto.subtle.generateKey` output, already wire-encoded) is the `kp` parameter. -/
def generateAccount (P : Prims) (iv : Option String) (kp : Credentials) (key : String) : String :=
  match iv with
  | some ivs => if ivs.isEmpty then "" else P.enc (P.stringifyCreds kp) key ivs
  | none => ""

/-- Function `decryptData` from `src/build/node.mjs`: if the configured IV is truthy,
decrypt and `JSON.parse` (either step may throw — `Except.error` — and
`decryptData` has no try/catch, so the throw propagates to its caller);
otherwise return `null` (`Option.none`). -/
def decryptData (P : Prims) (iv : Option String) (data key : String) :
    Except String (Option Credentials) :=
  match iv with
  | some ivs =>
    if ivs.isEmpty then .ok none
    else
      match P.dec data key ivs with
      | .error e => .error e
      | .ok plain =>
        match P.parseCreds plain with
        | .error e => .error e
        | .ok creds => .ok (some creds)
  | none => .ok none

/-- The `try { return decryptData(...) } catch (e) { return null }` wrapper around
`decryptData` in the `loginAccount` resolver (and, likewise, in `sign`):
a thrown decryption/parse failure is swallowed to an absence value. -/
def loginDecrypt (P : Prims) (iv : Option String) (data key : String) : Option Credentials :=
  match decryptData P iv data key with
  | .error _ => none
  | .ok v => v

/-- External non-determinism of one machine run: whether each DB call fails
(a rejected promise) and the two independently generated fresh key pairs. -/
structure Env where
  fetchFails : Bool
  insertAccountFails : Bool
  insertAppAccountFails : Bool
  kpTop : Credentials
  kpApp : Credentials

/-- Output of the `fetchLogins` actor. -/
structure FetchOut where
  isRegisteredInApp : Bool
  isRegistered : Bool
deriving DecidableEq, Repr

/-- The `fetchLogins` actor: throws when `input.id` is falsy, otherwise looks up
the app-scoped key `generateKey([id, appId].join("%"))` and the top-level key
`generateKey(id)` and reports which records exist. A DB error rejects the promise. -/
def fetchLogins (P : Prims) (env : Env) (store : Store) (id : Option String)
    (appId : Option String) : Except String FetchOut :=
  match id with
  | none => .error "ID not set"
  | some i =>
    if i.isEmpty then .error "ID not set"
    else if env.fetchFails then .error "db error"
    else
      let appKey := storeKeyApp P i appId
      let inApp := (findOne store appKey).isSome
      let mainKey := storeKeyTop P i
      let isReg := (findOne store mainKey).isSome
      .ok ⟨inApp, isReg⟩

/-- Resolved value of a registration actor: the inserted document id on success,
or the resolved-but-not-thrown `new Error("Registration failed")` value when a
derived key is falsy. -/
inductive RegDone
  | insertedId
  | errValue (msg : String)
deriving DecidableEq, Repr

/-- The `registerAccount` actor: throws when `input.id` is falsy; derives the
top-level storage and cipher keys; when both are truthy, generates the
credential envelope and inserts `{ id: storeKey, credentials }` (a DB error
rejects the promise); when a key is falsy, resolves with an `Error` value. -/
def registerAccount (P : Prims) (env : Env) (iv : Option String) (store : Store)
    (id : Option String) (pin : Option Nat) : Except String (Store × RegDone) :=
  match id with
  | none => .error "ID not set"
  | some i =>
    if i.isEmpty then .error "ID not set"
    else
      let storeKey := storeKeyTop P i
      let cipherKey := cipherKeyTop P i pin
      if !storeKey.isEmpty && !cipherKey.isEmpty then
        let credentials := generateAccount P iv env.kpTop cipherKey
        if env.insertAccountFails then .error "insert failed"
        else .ok (store ++ [⟨storeKey, credentials⟩], .insertedId)
      else .ok (store, .errValue "Registration failed")

/-- The `registerAppAccount` actor: like `registerAccount` but with the
app-scoped storage and cipher keys (`join("%")` / three-way `join("$")`,
rendering an absent `appId` as the empty string). -/
def registerAppAccount (P : Prims) (env : Env) (iv : Option String) (store : Store)
    (id : Option String) (pin : Option Nat) (appId : Option String) :
    Except String (Store × RegDone) :=
  match id with
  | none => .error "ID not set"
  | some i =>
    if i.isEmpty then .error "ID not set"
    else
      let storeKey := storeKeyApp P i appId
      let cipherKey := cipherKeyApp P i pin appId
      if !storeKey.isEmpty && !cipherKey.isEmpty then
        let credentials := generateAccount P iv env.kpApp cipherKey
        if env.insertAppAccountFails then .error "insert failed"
        else .ok (store ++ [⟨storeKey, credentials⟩], .insertedId)
      else .ok (store, .errValue "Registration failed")

/-- Machine context: all fields optional, exactly as declared in the machine's types. -/
structure Ctx where
  id : Option String
  appId : Option String
  pin : Option Nat
  isRegistered : Option Bool
  isRegisteredInApp : Option Bool
  error : Option String
deriving DecidableEq, Repr

/-- Guard `isNewAccount`: `context.isRegistered === false && context.isRegisteredInApp === false`. -/
def isNewAccount (c : Ctx) : Bool :=
  c.isRegistered == some false && c.isRegisteredInApp == some false

/-- Guard `isNewAppAccount`: `context.isRegistered === true && context.isRegisteredInApp === false`. -/
def isNewAppAccount (c : Ctx) : Bool :=
  c.isRegistered == some true && c.isRegisteredInApp == some false

/-- Guard `hasAppId`: `context.appId && context.appId.length > 0 || false`
(JS truthiness: `undefined`, `null` and `""` are falsy). -/
def hasAppId (c : Ctx) : Bool :=
  match c.appId with
  | some s => decide (0 < s.length)
  | none => false

/-- The machine's state names. -/
inductive MState
  | idle
  | fetching
  | validating
  | error
  | registeringAccount
  | registeringAppAccount
  | registered
deriving DecidableEq, Repr

/-- Result of (the rest of) a machine run: the states entered, the final state,
the final context, and the final contents of the `auth` collection. -/
structure Outcome where
  trace : List MState
  final : MState
  ctx : Ctx
  store : Store
deriving DecidableEq, Repr

/-- The `registeringAppAccount` state: invoke `registerAppAccount`; `onDone`
targets `registered` unconditionally, `onError` targets `error` assigning
`error = "Failed registering app account"`. -/
def runRegisteringAppAccount (P : Prims) (env : Env) (iv : Option String)
    (c : Ctx) (store : Store) : Outcome :=
  match registerAppAccount P env iv store c.id c.pin c.appId with
  | .error _ =>
    ⟨[.registeringAppAccount, .error], .error,
      { c with error := some "Failed registering app account" }, store⟩
  | .ok (store2, _) =>
    ⟨[.registeringAppAccount, .registered], .registered, c, store2⟩

/-- The `registeringAccount` state: invoke `registerAccount`; `onDone` targets
`registeringAppAccount` when `hasAppId` holds and `registered` otherwise;
`onError` targets `error` assigning `error = "Failed registering account"`. -/
def runRegisteringAccount (P : Prims) (env : Env) (iv : Option String)
    (c : Ctx) (store : Store) : Outcome :=
  match registerAccount P env iv store c.id c.pin with
  | .error _ =>
    ⟨[.registeringAccount, .error], .error,
      { c with error := some "Failed registering account" }, store⟩
  | .ok (store2, _) =>
    if hasAppId c then
      let o := runRegisteringAppAccount P env iv c store2
      ⟨.registeringAccount :: o.trace, o.final, o.ctx, o.store⟩
    else
      ⟨[.registeringAccount, .registered], .registered, c, store2⟩

/-- The `validating` state's `always` transitions, in declaration order:
`isNewAccount` to `registeringAccount`, then `isNewAppAccount` to
`registeringAppAccount`, else `error` with `error = "Account already registered"`. -/
def runValidating (P : Prims) (env : Env) (iv : Option String)
    (c : Ctx) (store : Store) : Outcome :=
  if isNewAccount c then
    let o := runRegisteringAccount P env iv c store
    ⟨.validating :: o.trace, o.final, o.ctx, o.store⟩
  else if isNewAppAccount c then
    let o := runRegisteringAppAccount P env iv c store
    ⟨.validating :: o.trace, o.final, o.ctx, o.store⟩
  else
    ⟨[.validating, .error], .error,
      { c with error := some "Account already registered" }, store⟩

/-- The `fetching` state: invoke `fetchLogins`; `onDone` records
`isRegistered`/`isRegisteredInApp` (`|| false`) and targets `validating`;
`onError` targets `error` assigning `error = "Failed fetching login details"`. -/
def runFetching (P : Prims) (env : Env) (iv : Option String)
    (c : Ctx) (store : Store) : Outcome :=
  match fetchLogins P env store c.id c.appId with
  | .error _ =>
    ⟨[.fetching, .error], .error,
      { c with error := some "Failed fetching login details" }, store⟩
  | .ok r =>
    let c2 := { c with
      isRegistered := some (r.isRegistered || false),
      isRegisteredInApp := some (r.isRegisteredInApp || false) }
    let o := runValidating P env iv c2 store
    ⟨.fetching :: o.trace, o.final, o.ctx, o.store⟩

/-- The `register` event: `{ type: "register"; id: string; appId?: string | null; pin: number }`. -/
structure RegisterEvent where
  id : String
  appId : Option String
  pin : Nat
deriving DecidableEq, Repr

/-- A full machine run: from `idle`, the `register` event fires `saveIds`
(capturing id, appId, pin into the context) and targets `fetching`. -/
def runMachine (P : Prims) (env : Env) (iv : Option String)
    (e : RegisterEvent) (store : Store) : Outcome :=
  let c : Ctx := ⟨some e.id, e.appId, some e.pin, none, none, none⟩
  let o := runFetching P env iv c store
  ⟨.idle :: o.trace, o.final, o.ctx, o.store⟩

/-- The machine's output type `RegisterAccount = { success: boolean; error?: string }`. -/
structure RegisterOut where
  success : Bool
  error : Option String
deriving DecidableEq, Repr

/-- The machine's `output` function:
`success: !context.error || context.error.length === 0`. -/
def output (c : Ctx) : RegisterOut :=
  ⟨match c.error with
   | none => true
   | some e => e.isEmpty,
   c.error⟩

/-! Concrete instantiations of the external primitives, used by witnesses and
counterexamples: a prefix-injective toy hash, an identity cipher, and a toy
credentials codec. -/

/-- A concrete `Prims` instance for evaluation: `hash` prefixes `"h"`,
`enc` is the identity on the plaintext, `dec` returns the ciphertext unchanged,
and the credentials codec round-trips the fixed pair `⟨"pk", "sk"⟩`. -/
def cP : Prims :=
  ⟨fun s => "h" ++ s, fun m _ _ => m, fun c _ _ => .ok c,
   fun _ => "s", fun _ => .ok ⟨"pk", "sk"⟩⟩

/-- A concrete `Prims` instance whose decryption always fails, modelling a
wrong key or corrupted ciphertext making `decipher.final` throw. -/
def cPbad : Prims :=
  ⟨fun s => "h" ++ s, fun m _ _ => m, fun _ _ _ => .error "bad decrypt",
   fun _ => "s", fun _ => .ok ⟨"pk", "sk"⟩⟩

/-- A concrete environment where every DB call succeeds. -/
def cEnv : Env := ⟨false, false, false, ⟨"pub", "priv"⟩, ⟨"pub2", "priv2"⟩⟩

/-- A concrete environment where the app-scoped insert fails. -/
def cEnvAppFail : Env := ⟨false, false, true, ⟨"pub", "priv"⟩, ⟨"pub2", "priv2"⟩⟩

/-- A store holding exactly one top-level registration record for `"alice"` under `cP`. -/
def aliceStore : Store := [⟨cP.hash "alice", "creds0"⟩]

/-- C2: the derived keys are the (hex-encoded sha256) hash of the specified
concatenations — storage top-level `HASH(id)`, storage app-scoped
`HASH(id + "%" + appId)`, cipher top-level `HASH(id + "$" + pin)`, cipher
app-scoped `HASH(id + "$" + pin + "$" + appId)` — and equal inputs always
give equal outputs. -/
theorem derivedKeys_formula (P : Prims) (id appId : String) (pin : Nat)
    (id2 appId2 : String) (pin2 : Nat)
    (h1 : id = id2) (h2 : appId = appId2) (h3 : pin = pin2) :
    storeKeyTop P id = P.hash id ∧
    storeKeyApp P id (some appId) = P.hash (id ++ "%" ++ appId) ∧
    cipherKeyTop P id (some pin) = P.hash (id ++ "$" ++ toString pin) ∧
    cipherKeyApp P id (some pin) (some appId) =
      P.hash (id ++ "$" ++ toString pin ++ "$" ++ appId) ∧
    storeKeyTop P id = storeKeyTop P id2 ∧
    storeKeyApp P id (some appId) = storeKeyApp P id2 (some appId2) ∧
    cipherKeyTop P id (some pin) = cipherKeyTop P id2 (some pin2) ∧
    cipherKeyApp P id (some pin) (some appId) =
      cipherKeyApp P id2 (some pin2) (some appId2) := by
  subst h1; subst h2; subst h3
  exact ⟨rfl, rfl, rfl, rfl, rfl, rfl, rfl, rfl⟩

/-- Witness for `derivedKeys_formula` at `P := cP`, `id := "a"`, `appId := "b"`, `pin := 7`. -/
theorem derivedKeys_formula_witness :
    storeKeyTop cP "a" = cP.hash "a" ∧
    storeKeyApp cP "a" (some "b") = cP.hash ("a" ++ "%" ++ "b") ∧
    cipherKeyTop cP "a" (some 7) = cP.hash ("a" ++ "$" ++ toString 7) ∧
    cipherKeyApp cP "a" (some 7) (some "b") =
      cP.hash ("a" ++ "$" ++ toString 7 ++ "$" ++ "b") ∧
    storeKeyTop cP "a" = storeKeyTop cP "a" ∧
    storeKeyApp cP "a" (some "b") = storeKeyApp cP "a" (some "b") ∧
    cipherKeyTop cP "a" (some 7) = cipherKeyTop cP "a" (some 7) ∧
    cipherKeyApp cP "a" (some 7) (some "b") = cipherKeyApp cP "a" (some 7) (some "b") :=
  derivedKeys_formula cP "a" "b" 7 "a" "b" 7 rfl rfl rfl

/-- C7: the top-level storage key differs from the app-scoped storage key for any
non-empty `appId`, given that the hash does not collide on the two (distinct)
preimages `id` and `id + "%" + appId`. -/
theorem storageKey_namespaces_distinct (P : Prims) (id appId : String)
    (hne : 0 < appId.length)
    (hinj : P.hash id = P.hash (id ++ "%" ++ appId) → id = id ++ "%" ++ appId) :
    storeKeyTop P id ≠ storeKeyApp P id (some appId) := by
  intro h
  have h2 : id = id ++ "%" ++ appId := hinj h
  have h3 := congrArg String.length h2
  rw [String.length_append, String.length_append] at h3
  have h4 : ("%" : String).length = 1 := rfl
  omega

/-- Witness for `storageKey_namespaces_distinct` at `P := cP`, `id := "a"`, `appId := "b"`. -/
theorem storageKey_namespaces_distinct_witness :
    storeKeyTop cP "a" ≠ storeKeyApp cP "a" (some "b") :=
  storageKey_namespaces_distinct cP "a" "b" (by decide) (by decide)

/-- C5 counterexample: a decryption failure inside `decryptData` (here, a failing
`decipher` step on a corrupted ciphertext) propagates out of `decryptData` as a
thrown exception (`Except.error`): `decryptData` itself does not return an
error/null value in this case. -/
theorem decryptData_throws_counterexample :
    decryptData cPbad (some "0011") "deadbeef" "00ff" = .error "bad decrypt" := by
  rfl

/-- C5 amended: when the decrypt step or the `JSON.parse` step fails (wrong key,
corrupted ciphertext, or malformed JSON), `decryptData` propagates the failure
as a thrown exception to its caller; the `try/catch` wrappers at its call sites
(`sign`, `loginAccount`) swallow the throw and return null, so no exception
passes the resolver boundary. -/
theorem decryptData_failure_propagation (P : Prims) (ivs data key e : String)
    (hiv : ivs.isEmpty = false)
    (hfail : P.dec data key ivs = .error e ∨
      ∃ plain, P.dec data key ivs = .ok plain ∧ P.parseCreds plain = .error e) :
    decryptData P (some ivs) data key = .error e ∧
    loginDecrypt P (some ivs) data key = none := by
  rcases hfail with h | ⟨plain, hd, hp⟩
  · exact ⟨by simp [decryptData, hiv, h], by simp [loginDecrypt, decryptData, hiv, h]⟩
  · exact ⟨by simp [decryptData, hiv, hd, hp], by simp [loginDecrypt, decryptData, hiv, hd, hp]⟩

/-- Witness for `decryptData_failure_propagation` at `P := cPbad` and concrete strings. -/
theorem decryptData_failure_propagation_witness :
    decryptData cPbad (some "0011") "feed" "00ff" = .error "bad decrypt" ∧
    loginDecrypt cPbad (some "0011") "feed" "00ff" = none :=
  decryptData_failure_propagation cPbad "0011" "feed" "00ff" "bad decrypt"
    (by decide) (Or.inl rfl)

/-- C6: for a truthy IV, decrypting a freshly generated envelope under the same
cipher key recovers the serialized key pair, given the cipher round-trip and
codec round-trip facts for the external primitives. -/
theorem envelope_roundtrip (P : Prims) (ivs key : String) (kp : Credentials)
    (hiv : ivs.isEmpty = false)
    (hdec : P.dec (P.enc (P.stringifyCreds kp) key ivs) key ivs = .ok (P.stringifyCreds kp))
    (hparse : P.parseCreds (P.stringifyCreds kp) = .ok kp) :
    decryptData P (some ivs) (generateAccount P (some ivs) kp key) key = .ok (some kp) := by
  simp [decryptData, generateAccount, hiv, hdec, hparse]

/-- Witness for `envelope_roundtrip` at `P := cP`, `kp := ⟨"pk", "sk"⟩`. -/
theorem envelope_roundtrip_witness :
    decryptData cP (some "0011") (generateAccount cP (some "0011") ⟨"pk", "sk"⟩ "00ff") "00ff" =
      .ok (some ⟨"pk", "sk"⟩) :=
  envelope_roundtrip cP "0011" "00ff" ⟨"pk", "sk"⟩ (by decide) rfl rfl

/-- C1 counterexample: with `"alice"` already holding a top-level registration
record, re-submitting a `register` event for `"alice"` with no `appId` does
not fall through to `error`: `isRegisteredInApp` is looked up at
`hash("alice" + "%")` where no record exists, so the `isNewAppAccount` guard
fires, the run ends in `registered` with `success: true`, and a new record is
inserted. -/
theorem resubmit_noApp_counterexample :
    findOne aliceStore (storeKeyTop cP "alice") ≠ none ∧
    (runMachine cP cEnv (some "0011") ⟨"alice", none, 1234⟩ aliceStore).final = .registered ∧
    (runMachine cP cEnv (some "0011") ⟨"alice", none, 1234⟩ aliceStore).final ≠ .error ∧
    (runMachine cP cEnv (some "0011") ⟨"alice", none, 1234⟩ aliceStore).ctx.error ≠
      some "Account already registered" ∧
    (output (runMachine cP cEnv (some "0011") ⟨"alice", none, 1234⟩ aliceStore).ctx).success = true ∧
    (runMachine cP cEnv (some "0011") ⟨"alice", none, 1234⟩ aliceStore).store.length =
      aliceStore.length + 1 := by
  decide

/-- C1 amended: re-submitting a `register` event for an id that already holds a
top-level record, with no `appId` and no record at the app-scoped key
`hash(id + "%")`, sends the run through `validating`'s `isNewAppAccount` guard
to `registeringAppAccount`; when that insert succeeds the run ends in the
terminal `registered` state with output `success: true` and a new record
inserted at `hash(id + "%")`. Only when a record exists at `hash(id + "%")`
as well does the run fall through to `error` with "Account already registered". -/
theorem resubmit_noApp_run (P : Prims) (env : Env) (iv : Option String) (store : Store)
    (id : String) (pin : Nat) (r : AuthRecord)
    (hid : id.isEmpty = false)
    (hf : env.fetchFails = false)
    (hi2 : env.insertAppAccountFails = false)
    (hk3 : (storeKeyApp P id none).isEmpty = false)
    (hk4 : (cipherKeyApp P id (some pin) none).isEmpty = false)
    (h1 : findOne store (storeKeyTop P id) = some r)
    (h2 : findOne store (storeKeyApp P id none) = none) :
    runMachine P env iv ⟨id, none, pin⟩ store =
      ⟨[.idle, .fetching, .validating, .registeringAppAccount, .registered],
       .registered,
       ⟨some id, none, some pin, some true, some false, none⟩,
       store ++ [⟨storeKeyApp P id none,
                  generateAccount P iv env.kpApp (cipherKeyApp P id (some pin) none)⟩]⟩ ∧
    (output (runMachine P env iv ⟨id, none, pin⟩ store).ctx).success = true := by
  have hrun : runMachine P env iv ⟨id, none, pin⟩ store =
      ⟨[.idle, .fetching, .validating, .registeringAppAccount, .registered],
       .registered,
       ⟨some id, none, some pin, some true, some false, none⟩,
       store ++ [⟨storeKeyApp P id none,
                  generateAccount P iv env.kpApp (cipherKeyApp P id (some pin) none)⟩]⟩ := by
    simp [runMachine, runFetching, runValidating, runRegisteringAppAccount,
      fetchLogins, registerAppAccount, isNewAccount, isNewAppAccount,
      hid, hf, hi2, hk3, hk4, h1, h2]
  exact ⟨hrun, by rw [hrun]; rfl⟩

/-- Witness for `resubmit_noApp_run` at the concrete `"alice"` store. -/
theorem resubmit_noApp_run_witness :
    runMachine cP cEnv (some "0011") ⟨"alice", none, 1234⟩ aliceStore =
      ⟨[.idle, .fetching, .validating, .registeringAppAccount, .registered],
       .registered,
       ⟨some "alice", none, some 1234, some true, some false, none⟩,
       aliceStore ++ [⟨storeKeyApp cP "alice" none,
                       generateAccount cP (some "0011") cEnv.kpApp
                         (cipherKeyApp cP "alice" (some 1234) none)⟩]⟩ ∧
    (output (runMachine cP cEnv (some "0011") ⟨"alice", none, 1234⟩ aliceStore).ctx).success = true :=
  resubmit_noApp_run cP cEnv (some "0011") aliceStore "alice" 1234 ⟨cP.hash "alice", "creds0"⟩
    (by decide) rfl rfl (by decide) (by decide) (by decide) (by decide)

/-- C3: a fresh identity submitted with a non-empty `appId` and no existing
records passes through `registeringAccount` (insert at the top-level storage
key), then — `hasAppId` being true — through `registeringAppAccount` (insert at
the app-scoped storage key), ending in the terminal `registered` state with
both records persisted. -/
theorem freshWithApp_run (P : Prims) (env : Env) (iv : Option String) (store : Store)
    (id appId : String) (pin : Nat)
    (hid : id.isEmpty = false)
    (happ : 0 < appId.length)
    (hf : env.fetchFails = false)
    (hi1 : env.insertAccountFails = false)
    (hi2 : env.insertAppAccountFails = false)
    (hk1 : (storeKeyTop P id).isEmpty = false)
    (hk2 : (cipherKeyTop P id (some pin)).isEmpty = false)
    (hk3 : (storeKeyApp P id (some appId)).isEmpty = false)
    (hk4 : (cipherKeyApp P id (some pin) (some appId)).isEmpty = false)
    (h1 : findOne store (storeKeyTop P id) = none)
    (h2 : findOne store (storeKeyApp P id (some appId)) = none) :
    runMachine P env iv ⟨id, some appId, pin⟩ store =
      ⟨[.idle, .fetching, .validating, .registeringAccount, .registeringAppAccount, .registered],
       .registered,
       ⟨some id, some appId, some pin, some false, some false, none⟩,
       store ++ [⟨storeKeyTop P id, generateAccount P iv env.kpTop (cipherKeyTop P id (some pin))⟩,
                 ⟨storeKeyApp P id (some appId),
                  generateAccount P iv env.kpApp (cipherKeyApp P id (some pin) (some appId))⟩]⟩ := by
  simp [runMachine, runFetching, runValidating, runRegisteringAccount,
    runRegisteringAppAccount, fetchLogins, registerAccount, registerAppAccount,
    isNewAccount, isNewAppAccount, hasAppId,
    hid, happ, hf, hi1, hi2, hk1, hk2, hk3, hk4, h1, h2]

/-- Witness for `freshWithApp_run` on the empty store. -/
theorem freshWithApp_run_witness :
    runMachine cP cEnv (some "0011") ⟨"a", some "b", 7⟩ [] =
      ⟨[.idle, .fetching, .validating, .registeringAccount, .registeringAppAccount, .registered],
       .registered,
       ⟨some "a", some "b", some 7, some false, some false, none⟩,
       [] ++ [⟨storeKeyTop cP "a", generateAccount cP (some "0011") cEnv.kpTop (cipherKeyTop cP "a" (some 7))⟩,
              ⟨storeKeyApp cP "a" (some "b"),
               generateAccount cP (some "0011") cEnv.kpApp (cipherKeyApp cP "a" (some 7) (some "b"))⟩]⟩ :=
  freshWithApp_run cP cEnv (some "0011") [] "a" "b" 7
    (by decide) (by decide) rfl rfl rfl
    (by decide) (by decide) (by decide) (by decide) rfl rfl

/-- C4: when the top-level account insert succeeds and the subsequent app-scoped
insert fails, the top-level record remains persisted (no rollback), the run
terminates in `error` with `error = "Failed registering app account"`, and the
output has `success: false`. -/
theorem partialFailure_run (P : Prims) (env : Env) (iv : Option String) (store : Store)
    (id appId : String) (pin : Nat)
    (hid : id.isEmpty = false)
    (happ : 0 < appId.length)
    (hf : env.fetchFails = false)
    (hi1 : env.insertAccountFails = false)
    (hi2 : env.insertAppAccountFails = true)
    (hk1 : (storeKeyTop P id).isEmpty = false)
    (hk2 : (cipherKeyTop P id (some pin)).isEmpty = false)
    (hk3 : (storeKeyApp P id (some appId)).isEmpty = false)
    (hk4 : (cipherKeyApp P id (some pin) (some appId)).isEmpty = false)
    (h1 : findOne store (storeKeyTop P id) = none)
    (h2 : findOne store (storeKeyApp P id (some appId)) = none) :
    runMachine P env iv ⟨id, some appId, pin⟩ store =
      ⟨[.idle, .fetching, .validating, .registeringAccount, .registeringAppAccount, .error],
       .error,
       ⟨some id, some appId, some pin, some false, some false,
        some "Failed registering app account"⟩,
       store ++ [⟨storeKeyTop P id,
                  generateAccount P iv env.kpTop (cipherKeyTop P id (some pin))⟩]⟩ ∧
    (output (runMachine P env iv ⟨id, some appId, pin⟩ store).ctx).success = false := by
  have hrun : runMachine P env iv ⟨id, some appId, pin⟩ store =
      ⟨[.idle, .fetching, .validating, .registeringAccount, .registeringAppAccount, .error],
       .error,
       ⟨some id, some appId, some pin, some false, some false,
        some "Failed registering app account"⟩,
       store ++ [⟨storeKeyTop P id,
                  generateAccount P iv env.kpTop (cipherKeyTop P id (some pin))⟩]⟩ := by
    simp [runMachine, runFetching, runValidating, runRegisteringAccount,
      runRegisteringAppAccount, fetchLogins, registerAccount, registerAppAccount,
      isNewAccount, isNewAppAccount, hasAppId,
      hid, happ, hf, hi1, hi2, hk1, hk2, hk3, hk4, h1, h2]
  refine ⟨hrun, ?_⟩
  rw [hrun]
  rfl

/-- Witness for `partialFailure_run` on the empty store with a failing app insert. -/
theorem partialFailure_run_witness :
    runMachine cP cEnvAppFail (some "0011") ⟨"a", some "b", 7⟩ [] =
      ⟨[.idle, .fetching, .validating, .registeringAccount, .registeringAppAccount, .error],
       .error,
       ⟨some "a", some "b", some 7, some false, some false,
        some "Failed registering app account"⟩,
       [] ++ [⟨storeKeyTop cP "a",
               generateAccount cP (some "0011") cEnvAppFail.kpTop (cipherKeyTop cP "a" (some 7))⟩]⟩ ∧
    (output (runMachine cP cEnvAppFail (some "0011") ⟨"a", some "b", 7⟩ []).ctx).success = false :=
  partialFailure_run cP cEnvAppFail (some "0011") [] "a" "b" 7
    (by decide) (by decide) rfl rfl rfl
    (by decide) (by decide) (by decide) (by decide) rfl rfl

/-- C8: when `appId` is absent, `fetchLogins` still queries the app-scoped key,
which degenerates to `hash(id + "%")` because `join` renders the missing
element as the empty string; `registerAppAccount` likewise inserts under
`hash(id + "%")`; and that key differs from the top-level `hash(id)` given
that the hash does not collide on the two distinct preimages. -/
theorem missingAppId_keys (P : Prims) (env : Env) (iv : Option String) (store : Store)
    (id : String) (pin : Option Nat)
    (hid : id.isEmpty = false)
    (hf : env.fetchFails = false)
    (hi2 : env.insertAppAccountFails = false)
    (hk3 : (storeKeyApp P id none).isEmpty = false)
    (hk4 : (cipherKeyApp P id pin none).isEmpty = false)
    (hinj : P.hash (id ++ "%") = P.hash id → id ++ "%" = id) :
    fetchLogins P env store (some id) none =
      .ok ⟨(findOne store (P.hash (id ++ "%"))).isSome,
           (findOne store (P.hash id)).isSome⟩ ∧
    registerAppAccount P env iv store (some id) pin none =
      .ok (store ++ [⟨P.hash (id ++ "%"),
                     generateAccount P iv env.kpApp (cipherKeyApp P id pin none)⟩],
           .insertedId) ∧
    P.hash (id ++ "%") ≠ P.hash id := by
  have hkey : storeKeyApp P id none = P.hash (id ++ "%") := by
    simp [storeKeyApp, generateKey, joinPct, optStr, String.append_empty]
  have hk3' : (P.hash (id ++ "%")).isEmpty = false := hkey ▸ hk3
  refine ⟨?_, ?_, ?_⟩
  · rw [← hkey]
    simp [fetchLogins, hid, hf, storeKeyTop, generateKey]
  · simp [registerAppAccount, hid, hi2, hk3', hk4, hkey]
  · intro h
    have h2 := hinj h
    have h3 := congrArg String.length h2
    rw [String.length_append] at h3
    have h4 : ("%" : String).length = 1 := rfl
    omega

/-- Witness for `missingAppId_keys` at the concrete `"alice"` store. -/
theorem missingAppId_keys_witness :
    fetchLogins cP cEnv aliceStore (some "alice") none =
      .ok ⟨(findOne aliceStore (cP.hash ("alice" ++ "%"))).isSome,
           (findOne aliceStore (cP.hash "alice")).isSome⟩ ∧
    registerAppAccount cP cEnv (some "0011") aliceStore (some "alice") (some 1234) none =
      .ok (aliceStore ++ [⟨cP.hash ("alice" ++ "%"),
                          generateAccount cP (some "0011") cEnv.kpApp
                            (cipherKeyApp cP "alice" (some 1234) none)⟩],
           .insertedId) ∧
    cP.hash ("alice" ++ "%") ≠ cP.hash "alice" :=
  missingAppId_keys cP cEnv (some "0011") aliceStore "alice" (some 1234)
    (by decide) rfl rfl (by decide) (by decide) (by decide)

/-- C9: with the IV configuration unset, `generateAccount` returns the empty
string, `decryptData` returns null, and a registration run for a fresh id
still reaches `registered` with `success: true`, persisting a record whose
credentials field is the empty string. -/
theorem ivUnset_run (P : Prims) (env : Env) (store : Store) (id : String) (pin : Nat)
    (d k : String) (kp : Credentials)
    (hid : id.isEmpty = false)
    (hf : env.fetchFails = false)
    (hi1 : env.insertAccountFails = false)
    (hk1 : (storeKeyTop P id).isEmpty = false)
    (hk2 : (cipherKeyTop P id (some pin)).isEmpty = false)
    (h1 : findOne store (storeKeyTop P id) = none)
    (h2 : findOne store (storeKeyApp P id none) = none) :
    generateAccount P none kp k = "" ∧
    decryptData P none d k = .ok none ∧
    runMachine P env none ⟨id, none, pin⟩ store =
      ⟨[.idle, .fetching, .validating, .registeringAccount, .registered],
       .registered,
       ⟨some id, none, some pin, some false, some false, none⟩,
       store ++ [⟨storeKeyTop P id, ""⟩]⟩ ∧
    (output (runMachine P env none ⟨id, none, pin⟩ store).ctx).success = true := by
  have hrun : runMachine P env none ⟨id, none, pin⟩ store =
      ⟨[.idle, .fetching, .validating, .registeringAccount, .registered],
       .registered,
       ⟨some id, none, some pin, some false, some false, none⟩,
       store ++ [⟨storeKeyTop P id, ""⟩]⟩ := by
    simp [runMachine, runFetching, runValidating, runRegisteringAccount,
      fetchLogins, registerAccount, generateAccount, isNewAccount, isNewAppAccount,
      hasAppId, hid, hf, hi1, hk1, hk2, h1, h2]
  exact ⟨rfl, rfl, hrun, by rw [hrun]; rfl⟩

/-- Witness for `ivUnset_run` on the empty store. -/
theorem ivUnset_run_witness :
    generateAccount cP none ⟨"pk", "sk"⟩ "00ff" = "" ∧
    decryptData cP none "feed" "00ff" = .ok none ∧
    runMachine cP cEnv none ⟨"a", none, 7⟩ [] =
      ⟨[.idle, .fetching, .validating, .registeringAccount, .registered],
       .registered,
       ⟨some "a", none, some 7, some false, some false, none⟩,
       [] ++ [⟨storeKeyTop cP "a", ""⟩]⟩ ∧
    (output (runMachine cP cEnv none ⟨"a", none, 7⟩ []).ctx).success = true :=
  ivUnset_run cP cEnv [] "a" 7 "feed" "00ff" ⟨"pk", "sk"⟩
    (by decide) rfl rfl (by decide) (by decide) rfl rfl

/-- Case analysis of the `registeringAppAccount` state: it ends in `registered`
leaving the context's error untouched, or in `error` with the fixed message. -/
theorem regAppOutcome (P : Prims) (env : Env) (iv : Option String) (c : Ctx) (store : Store) :
    ((runRegisteringAppAccount P env iv c store).final = .registered ∧
     (runRegisteringAppAccount P env iv c store).ctx.error = c.error) ∨
    ((runRegisteringAppAccount P env iv c store).final = .error ∧
     (runRegisteringAppAccount P env iv c store).ctx.error =
       some "Failed registering app account") := by
  rcases hE : registerAppAccount P env iv store c.id c.pin c.appId with e | ⟨store2, d⟩
  · right; simp [runRegisteringAppAccount, hE]
  · left; simp [runRegisteringAppAccount, hE]

/-- Case analysis of the `registeringAccount` state (and the
`registeringAppAccount` state it may chain into). -/
theorem regAccOutcome (P : Prims) (env : Env) (iv : Option String) (c : Ctx) (store : Store) :
    ((runRegisteringAccount P env iv c store).final = .registered ∧
     (runRegisteringAccount P env iv c store).ctx.error = c.error) ∨
    ((runRegisteringAccount P env iv c store).final = .error ∧
     ((runRegisteringAccount P env iv c store).ctx.error = some "Failed registering account" ∨
      (runRegisteringAccount P env iv c store).ctx.error =
        some "Failed registering app account")) := by
  rcases hE : registerAccount P env iv store c.id c.pin with e | ⟨store2, d⟩
  · right
    constructor
    · simp [runRegisteringAccount, hE]
    · exact Or.inl (by simp [runRegisteringAccount, hE])
  · by_cases hA : hasAppId c
    · rcases regAppOutcome P env iv c store2 with ⟨hfin, herr⟩ | ⟨hfin, herr⟩
      · left; simp [runRegisteringAccount, hE, hA, hfin, herr]
      · right
        refine ⟨by simp [runRegisteringAccount, hE, hA, hfin], Or.inr ?_⟩
        simp [runRegisteringAccount, hE, hA, herr]
    · left; simp [runRegisteringAccount, hE, hA]

/-- Case analysis of the `validating` state and everything downstream of it. -/
theorem validatingOutcome (P : Prims) (env : Env) (iv : Option String) (c : Ctx) (store : Store) :
    ((runValidating P env iv c store).final = .registered ∧
     (runValidating P env iv c store).ctx.error = c.error) ∨
    ((runValidating P env iv c store).final = .error ∧
     ((runValidating P env iv c store).ctx.error = some "Account already registered" ∨
      (runValidating P env iv c store).ctx.error = some "Failed registering account" ∨
      (runValidating P env iv c store).ctx.error =
        some "Failed registering app account")) := by
  by_cases h1 : isNewAccount c
  · rcases regAccOutcome P env iv c store with ⟨hfin, herr⟩ | ⟨hfin, herr⟩
    · left; simp [runValidating, h1, hfin, herr]
    · right
      refine ⟨by simp [runValidating, h1, hfin], ?_⟩
      rcases herr with h | h
      · exact Or.inr (Or.inl (by simp [runValidating, h1, h]))
      · exact Or.inr (Or.inr (by simp [runValidating, h1, h]))
  · by_cases h2 : isNewAppAccount c
    · rcases regAppOutcome P env iv c store with ⟨hfin, herr⟩ | ⟨hfin, herr⟩
      · left; simp [runValidating, h1, h2, hfin, herr]
      · right
        exact ⟨by simp [runValidating, h1, h2, hfin],
               Or.inr (Or.inr (by simp [runValidating, h1, h2, herr]))⟩
    · right
      exact ⟨by simp [runValidating, h1, h2],
             Or.inl (by simp [runValidating, h1, h2])⟩

/-- Case analysis of the `fetching` state and everything downstream of it. -/
theorem fetchingOutcome (P : Prims) (env : Env) (iv : Option String) (c : Ctx) (store : Store) :
    ((runFetching P env iv c store).final = .registered ∧
     (runFetching P env iv c store).ctx.error = c.error) ∨
    ((runFetching P env iv c store).final = .error ∧
     ((runFetching P env iv c store).ctx.error = some "Failed fetching login details" ∨
      (runFetching P env iv c store).ctx.error = some "Account already registered" ∨
      (runFetching P env iv c store).ctx.error = some "Failed registering account" ∨
      (runFetching P env iv c store).ctx.error =
        some "Failed registering app account")) := by
  rcases hE : fetchLogins P env store c.id c.appId with e | r
  · right
    exact ⟨by simp [runFetching, hE], Or.inl (by simp [runFetching, hE])⟩
  · rcases validatingOutcome P env iv
      { c with isRegistered := some r.isRegistered,
               isRegisteredInApp := some r.isRegisteredInApp } store with
      ⟨hfin, herr⟩ | ⟨hfin, herr⟩
    · left; simp_all [runFetching, hE]
    · right
      refine ⟨by simp [runFetching, hE, hfin], ?_⟩
      rcases herr with h | h | h
      · exact Or.inr (Or.inl (by simp [runFetching, hE, h]))
      · exact Or.inr (Or.inr (Or.inl (by simp [runFetching, hE, h])))
      · exact Or.inr (Or.inr (Or.inr (by simp [runFetching, hE, h])))

/-- C10: the context's error field is set only on transitions into `error` and
never cleared, so every run ends in `registered` with no error and output
`success: true`, or in `error` with one of the four fixed messages and output
`success: false`; `success: true` holds exactly when the run ends in `registered`. -/
theorem run_output_invariant (P : Prims) (env : Env) (iv : Option String)
    (e : RegisterEvent) (store : Store) :
    ((runMachine P env iv e store).final = .registered ∨
     (runMachine P env iv e store).final = .error) ∧
    ((runMachine P env iv e store).final = .registered →
      (runMachine P env iv e store).ctx.error = none ∧
      (output (runMachine P env iv e store).ctx).success = true) ∧
    ((runMachine P env iv e store).final = .error →
      ((runMachine P env iv e store).ctx.error = some "Failed fetching login details" ∨
       (runMachine P env iv e store).ctx.error = some "Account already registered" ∨
       (runMachine P env iv e store).ctx.error = some "Failed registering account" ∨
       (runMachine P env iv e store).ctx.error = some "Failed registering app account") ∧
      (output (runMachine P env iv e store).ctx).success = false) ∧
    ((output (runMachine P env iv e store).ctx).success = true ↔
      (runMachine P env iv e store).final = .registered) := by
  rcases fetchingOutcome P env iv ⟨some e.id, e.appId, some e.pin, none, none, none⟩ store with
    ⟨hfin, herr⟩ | ⟨hfin, herr⟩
  · have hfin2 : (runMachine P env iv e store).final = .registered := by
      simp [runMachine, hfin]
    have herr2 : (runMachine P env iv e store).ctx.error = none := by
      simp [runMachine, herr]
    have hsucc : (output (runMachine P env iv e store).ctx).success = true := by
      simp [output, herr2]
    refine ⟨Or.inl hfin2, fun _ => ⟨herr2, hsucc⟩, fun h => ?_, by simp [hfin2, hsucc]⟩
    rw [hfin2] at h
    exact absurd h (by simp)
  · have hfin2 : (runMachine P env iv e store).final = .error := by
      simp [runMachine, hfin]
    have herr2 : (runMachine P env iv e store).ctx.error = some "Failed fetching login details" ∨
        (runMachine P env iv e store).ctx.error = some "Account already registered" ∨
        (runMachine P env iv e store).ctx.error = some "Failed registering account" ∨
        (runMachine P env iv e store).ctx.error = some "Failed registering app account" := by
      simpa [runMachine] using herr
    have hsucc : (output (runMachine P env iv e store).ctx).success = false := by
      rcases herr2 with h | h | h | h <;> simp [output, h] <;> decide
    refine ⟨Or.inr hfin2, fun h => ?_, fun _ => ⟨herr2, hsucc⟩, by simp [hfin2, hsucc]⟩
    rw [hfin2] at h
    exact absurd h (by simp)

/-- Witness for `run_output_invariant` at a concrete fresh-registration run. -/
theorem run_output_invariant_witness :
    ((runMachine cP cEnv (some "0011") ⟨"a", none, 7⟩ []).final = .registered ∨
     (runMachine cP cEnv (some "0011") ⟨"a", none, 7⟩ []).final = .error) ∧
    ((runMachine cP cEnv (some "0011") ⟨"a", none, 7⟩ []).final = .registered →
      (runMachine cP cEnv (some "0011") ⟨"a", none, 7⟩ []).ctx.error = none ∧
      (output (runMachine cP cEnv (some "0011") ⟨"a", none, 7⟩ []).ctx).success = true) ∧
    ((runMachine cP cEnv (some "0011") ⟨"a", none, 7⟩ []).final = .error →
      ((runMachine cP cEnv (some "0011") ⟨"a", none, 7⟩ []).ctx.error =
         some "Failed fetching login details" ∨
       (runMachine cP cEnv (some "0011") ⟨"a", none, 7⟩ []).ctx.error =
         some "Account already registered" ∨
       (runMachine cP cEnv (some "0011") ⟨"a", none, 7⟩ []).ctx.error =
         some "Failed registering account" ∨
       (runMachine cP cEnv (some "0011") ⟨"a", none, 7⟩ []).ctx.error =
         some "Failed registering app account") ∧
      (output (runMachine cP cEnv (some "0011") ⟨"a", none, 7⟩ []).ctx).success = false) ∧
    ((output (runMachine cP cEnv (some "0011") ⟨"a", none, 7⟩ []).ctx).success = true ↔
      (runMachine cP cEnv (some "0011") ⟨"a", none, 7⟩ []).final = .registered) :=
  run_output_invariant cP cEnv (some "0011") ⟨"a", none, 7⟩ []

end Simpl3
